import Mathlib

/-!
Shallow embedding of `src/pulsecore/source-output.c` (PulseAudio capture-stream
endpoint core): data model, lifecycle operations, data-flow push path, corking,
renaming and relocation, together with proofs about the specified behaviour.

External collaborators (registry container, event bus, resampler factory,
validation utilities) are modelled from their narrow contracts as an explicit
environment of functions; the control flow of every operation is translated
line-by-line from the C file.  C `assert` failures and NULL-pointer
dereferences are modelled as `none` (the call is not permitted); a NULL return
value of `pa_source_output_new` is modelled as a `some` result carrying `none`
for the created object.
-/

namespace SourceOutputCore

/-- The source-output state machine: `PA_SOURCE_OUTPUT_RUNNING`,
`PA_SOURCE_OUTPUT_CORKED`, `PA_SOURCE_OUTPUT_DISCONNECTED`. -/
inductive SOState where
  | RUNNING
  | CORKED
  | DISCONNECTED
deriving DecidableEq, Repr

/-- The owning source's operational state (`pa_source_new` asserts
`PA_SOURCE_RUNNING` on creation of an output). -/
inductive SourceState where
  | RUNNING
  | DISCONNECTED
deriving DecidableEq, Repr

/-- Model of `pa_sample_spec`: format, rate, channel count. -/
structure SampleSpec where
  format : Nat
  rate : Nat
  channels : Nat
deriving DecidableEq, Repr

/-- Model of `pa_channel_map`: channel count plus a position table. -/
structure ChannelMap where
  channels : Nat
  pos : List Nat
deriving DecidableEq, Repr

/-- Model of the `pa_memchunk` payload: the bytes of the chunk (its `length` is the list
length). -/
abbrev Chunk := List Nat

/-- Observable effects of one call: event-bus posts
(`pa_subscription_post` with NEW / REMOVE / CHANGE), source wake-ups
(`pa_source_notify`), resampler construction / destruction / execution,
deliveries to the `push` hook, and the final `pa_xfree` of the object. -/
inductive Event where
  | subNew (idx : Nat)
  | subRemove (idx : Nat)
  | subChange (idx : Nat)
  | sourceNotify (sidx : Nat)
  | resamplerBuilt (r : Nat)
  | resamplerFree (r : Nat)
  | resamplerRan (r : Nat)
  | deliver (c : Chunk)
  | freed (oid : Nat)
deriving DecidableEq, Repr

/-- Modelled from the spec: the external collaborator contracts of §6 —
UTF-8 / sample-spec / channel-map validation utilities, default channel-map
derivation (`pa_channel_map_init_auto`, which may fail), and the resampler
factory (`pa_resampler_new`, returning a stage handle or failure;
`pa_resampler_run`; `pa_resampler_get_method`).  These live outside `src/`. -/
structure Env where
  sampleSpecValid : SampleSpec → Bool
  channelMapValid : ChannelMap → Bool
  utf8Valid : String → Bool
  channelMapInitAuto : Nat → Option ChannelMap
  resamplerNew : SampleSpec → ChannelMap → SampleSpec → ChannelMap → Int → Option Nat
  resamplerRun : Nat → Chunk → Chunk
  resamplerGetMethod : Nat → Int

/-- Modelled from the spec: the fixed per-source capacity ceiling
`PA_MAX_OUTPUTS_PER_SOURCE`, declared in the header (not under `src/`).
The proofs only use that it is a fixed bound. -/
def PA_MAX_OUTPUTS_PER_SOURCE : Nat := 32

/-- The `PA_RESAMPLER_INVALID` sentinel for the requested resample method. -/
def PA_RESAMPLER_INVALID : Int := -1

/-- The `pa_source_output` structure: reference count, state, owned strings,
back-reference to the feeding source (by source index; `none` once
disconnected), the stream's own audio shape, whether the `push` delivery hook
is configured, the optional owned resampler stage handle, the retained
requested resample method, and the registry-assigned index. -/
structure SourceOutput where
  ref : Nat
  state : SOState
  name : String
  driver : Option String
  source : Option Nat
  sample_spec : SampleSpec
  channel_map : ChannelMap
  push : Bool
  resampler : Option Nat
  resample_method : Int
  index : Nat
deriving DecidableEq, Repr

/-- A source, as seen by this core: index, operational state, native audio
shape, and its member set `outputs` (the per-source `pa_idxset`, holding
output object ids). -/
structure Source where
  index : Nat
  state : SourceState
  sample_spec : SampleSpec
  channel_map : ChannelMap
  outputs : List Nat
deriving DecidableEq, Repr

/-- The server core: the global registry `source_outputs`
(an index-assigning `pa_idxset`, modelled as assigned-index / object-id
pairs), the next index it will hand out, and the default resample method. -/
structure Core where
  source_outputs : List (Nat × Nat)
  regNext : Nat
  resample_method : Int
deriving DecidableEq, Repr

/-- Whole-system state: the core, the sources (keyed by source index), the
allocated source-output objects (keyed by object id, modelling the heap), and
a fresh-object-id counter. -/
structure Sys where
  core : Core
  sources : List (Nat × Source)
  objs : List (Nat × SourceOutput)
  nextOid : Nat
deriving DecidableEq, Repr

/-- First-match association-list lookup. -/
def lookupA {α : Type} : List (Nat × α) → Nat → Option α
  | [], _ => none
  | (k, v) :: t, k' => if k = k' then some v else lookupA t k'

/-- Replace the value stored under a key (no-op if the key is absent). -/
def setA {α : Type} : List (Nat × α) → Nat → α → List (Nat × α)
  | [], _, _ => []
  | (a, b) :: t, k, v => if a = k then (k, v) :: setA t k v else (a, b) :: setA t k v

/-- Embedding of `pa_source_output_new`: validate, check capacity, negotiate the
resampler, allocate, register in both collections, post the NEW event.
Returns `none` on an assert-style precondition failure, and
`some (sys, [], none)` for the C function's NULL returns (which have no side
effects). -/
def pa_source_output_new (env : Env) (sys : Sys) (sidx : Nat)
    (driver : Option String) (name : String) (spec : SampleSpec)
    (map? : Option ChannelMap) (resample_method : Int) :
    Option (Sys × List Event × Option Nat) :=
  match lookupA sys.sources sidx with
  | none => none
  | some s =>
    if s.state ≠ SourceState.RUNNING then none
    else if ¬ env.sampleSpecValid spec then some (sys, [], none)
    else
      match (match map? with
             | some m => some m
             | none => env.channelMapInitAuto spec.channels) with
      | none => some (sys, [], none)
      | some map =>
        if ¬ env.channelMapValid map then some (sys, [], none)
        else if ¬ map.channels = spec.channels then some (sys, [], none)
        else if (match driver with
                 | none => true
                 | some d => env.utf8Valid d) = false then some (sys, [], none)
        else if ¬ env.utf8Valid name then some (sys, [], none)
        else if PA_MAX_OUTPUTS_PER_SOURCE ≤ s.outputs.length then some (sys, [], none)
        else
          let rm := if resample_method = PA_RESAMPLER_INVALID
                    then sys.core.resample_method else resample_method
          match (if spec = s.sample_spec ∧ map = s.channel_map then
                   some ((none : Option Nat), ([] : List Event))
                 else
                   match env.resamplerNew s.sample_spec s.channel_map spec map rm with
                   | none => none
                   | some r => some (some r, [Event.resamplerBuilt r])) with
          | none => some (sys, [], none)
          | some (resampler, bevs) =>
            let oid := sys.nextOid
            let idx := sys.core.regNext
            let o : SourceOutput :=
              { ref := 1, state := SOState.RUNNING, name := name, driver := driver,
                source := some sidx, sample_spec := spec, channel_map := map,
                push := false, resampler := resampler, resample_method := rm,
                index := idx }
            let core' : Core :=
              { source_outputs := (idx, oid) :: sys.core.source_outputs,
                regNext := sys.core.regNext + 1,
                resample_method := sys.core.resample_method }
            let s' : Source := { s with outputs := oid :: s.outputs }
            some ({ core := core', sources := setA sys.sources sidx s',
                    objs := (oid, o) :: sys.objs, nextOid := sys.nextOid + 1 },
                  bevs ++ [Event.subNew idx], some oid)

/-- Embedding of `pa_source_output_disconnect`: remove the object from the global registry
and from its source's member set, post the REMOVE event, clear the source
back-reference and the hooks, and enter the DISCONNECTED state.  `none`
models the asserted preconditions (not already disconnected, source
present). -/
def pa_source_output_disconnect (sys : Sys) (oid : Nat) :
    Option (Sys × List Event) :=
  match lookupA sys.objs oid with
  | none => none
  | some o =>
    if o.state = SOState.DISCONNECTED then none
    else
      match o.source with
      | none => none
      | some sidx =>
        match lookupA sys.sources sidx with
        | none => none
        | some s =>
          let core' : Core :=
            { sys.core with
                source_outputs := sys.core.source_outputs.filter (fun p => ¬ p.2 = oid) }
          let s' : Source := { s with outputs := s.outputs.filter (fun x => ¬ x = oid) }
          let o' : SourceOutput :=
            { o with source := none, push := false, state := SOState.DISCONNECTED }
          some ({ core := core', sources := setA sys.sources sidx s',
                  objs := setA sys.objs oid o', nextOid := sys.nextOid },
                [Event.subRemove o.index])

/-- Embedding of `source_output_free`: disconnect first when not already disconnected,
then free the resampler (if any) and the object's storage. -/
def source_output_free (sys : Sys) (oid : Nat) : Option (Sys × List Event) :=
  match lookupA sys.objs oid with
  | none => none
  | some o =>
    match (if o.state ≠ SOState.DISCONNECTED
           then pa_source_output_disconnect sys oid
           else some (sys, [])) with
    | none => none
    | some (sys1, evs1) =>
      match lookupA sys1.objs oid with
      | none => none
      | some o1 =>
        let fevs := match o1.resampler with
                    | some r => [Event.resamplerFree r]
                    | none => []
        some ({ sys1 with objs := sys1.objs.filter (fun p => ¬ p.1 = oid) },
              evs1 ++ fevs ++ [Event.freed oid])

/-- Embedding of `pa_source_output_ref`: assert `ref >= 1`, then increment. -/
def pa_source_output_ref (sys : Sys) (oid : Nat) : Option Sys :=
  match lookupA sys.objs oid with
  | none => none
  | some o =>
    if o.ref = 0 then none
    else some { sys with objs := setA sys.objs oid { o with ref := o.ref + 1 } }

/-- Embedding of `pa_source_output_unref`: assert `ref >= 1`, decrement, and run
`source_output_free` exactly when the count reaches zero. -/
def pa_source_output_unref (sys : Sys) (oid : Nat) : Option (Sys × List Event) :=
  match lookupA sys.objs oid with
  | none => none
  | some o =>
    if o.ref = 0 then none
    else if o.ref = 1 then
      source_output_free
        { sys with objs := setA sys.objs oid { o with ref := 0 } } oid
    else some ({ sys with objs := setA sys.objs oid { o with ref := o.ref - 1 } }, [])

/-- Embedding of `pa_source_output_push`: the per-chunk hot path.  Asserted preconditions:
non-empty chunk and a configured `push` hook.  CORKED drops the chunk; with
no resampler the chunk is delivered verbatim; otherwise it is run through the
stage, and a zero-length conversion result delivers nothing. -/
def pa_source_output_push (env : Env) (o : SourceOutput) (chunk : Chunk) :
    Option (List Event) :=
  if chunk.length = 0 then none
  else if o.push = false then none
  else if o.state = SOState.CORKED then some []
  else
    match o.resampler with
    | none => some [Event.deliver chunk]
    | some r =>
      let rchunk := env.resamplerRun r chunk
      if rchunk.length = 0 then some [Event.resamplerRan r]
      else some [Event.resamplerRan r, Event.deliver rchunk]

/-- Embedding of `pa_source_output_set_name`: replace the stored name and post the CHANGE
event on `o->source->core`.  A call on an object whose source reference has
been cleared dereferences NULL in the C code, so it is modelled as not
permitted. -/
def pa_source_output_set_name (o : SourceOutput) (name : String) :
    Option (SourceOutput × List Event) :=
  if o.ref = 0 then none
  else
    match o.source with
    | none => none
    | some _ => some ({ o with name := name }, [Event.subChange o.index])

/-- Embedding of `pa_source_output_cork`: no-op when DISCONNECTED; set the state from the
flag; wake the source exactly on a CORKED-with-flag-false call. -/
def pa_source_output_cork (o : SourceOutput) (b : Bool) :
    Option (SourceOutput × List Event) :=
  if o.ref = 0 then none
  else if o.state = SOState.DISCONNECTED then some (o, [])
  else
    let o' : SourceOutput :=
      { o with state := if b then SOState.CORKED else SOState.RUNNING }
    if o.state = SOState.CORKED ∧ b = false then
      match o.source with
      | none => none
      | some sidx => some (o', [Event.sourceNotify sidx])
    else some (o', [])

/-- Embedding of `pa_source_output_move_to`: relocate a live output to another source.
`garbage` models the indeterminate initial value of the C local
`pa_resampler *new_resampler`, which the function declares without an
initializer: on the path where neither the reuse branch nor the build branch
assigns it, the C code goes on to read it. -/
def pa_source_output_move_to (env : Env) (sys : Sys) (oid : Nat) (didx : Nat)
    (garbage : Option Nat) : Option (Sys × List Event × Int) :=
  match lookupA sys.objs oid with
  | none => none
  | some o =>
    if o.ref = 0 then none
    else
      match lookupA sys.sources didx with
      | none => none
      | some dest =>
        if o.source = some didx then some (sys, [], 0)
        else if PA_MAX_OUTPUTS_PER_SOURCE ≤ dest.outputs.length then some (sys, [], -1)
        else
          match o.source with
          | none => none
          | some oidx =>
            match lookupA sys.sources oidx with
            | none => none
            | some origin =>
              match (if o.resampler ≠ none ∧ origin.sample_spec = dest.sample_spec ∧
                        origin.channel_map = dest.channel_map then
                       some (o.resampler, ([] : List Event))
                     else if ¬ (o.sample_spec = dest.sample_spec ∧
                                o.channel_map = dest.channel_map) then
                       match env.resamplerNew dest.sample_spec dest.channel_map
                               o.sample_spec o.channel_map o.resample_method with
                       | none => none
                       | some r => some (some r, [Event.resamplerBuilt r])
                     else some (garbage, [])) with
              | none => some (sys, [], -1)
              | some (new_resampler, bevs) =>
                let origin' : Source :=
                  { origin with outputs := origin.outputs.filter (fun x => ¬ x = oid) }
                let dest' : Source := { dest with outputs := oid :: dest.outputs }
                let fr := if new_resampler = o.resampler
                          then (([] : List Event), o.resampler)
                          else ((match o.resampler with
                                 | some r => [Event.resamplerFree r]
                                 | none => []), new_resampler)
                let o' : SourceOutput := { o with source := some didx, resampler := fr.2 }
                some ({ core := sys.core,
                        sources := setA (setA sys.sources oidx origin') didx dest',
                        objs := setA sys.objs oid o', nextOid := sys.nextOid },
                      bevs ++ fr.1 ++ [Event.subChange o.index, Event.sourceNotify didx], 0)

/-- Iterated `pa_source_output_cork(o, 0)` calls, collecting the emitted
events. -/
def corkFalseN : SourceOutput → Nat → Option (SourceOutput × List Event)
  | o, 0 => some (o, [])
  | o, n + 1 =>
    match pa_source_output_cork o false with
    | none => none
    | some (o1, evs) =>
      match corkFalseN o1 n with
      | none => none
      | some (o2, evs2) => some (o2, evs ++ evs2)

/- Concrete fixtures used by the witnesses. -/

def specA : SampleSpec := { format := 0, rate := 44100, channels := 2 }

def specB : SampleSpec := { format := 0, rate := 48000, channels := 2 }

def mapAB : ChannelMap := { channels := 2, pos := [0, 1] }

def envId : Env :=
  { sampleSpecValid := fun _ => true
    channelMapValid := fun _ => true
    utf8Valid := fun _ => true
    channelMapInitAuto := fun n => some { channels := n, pos := List.range n }
    resamplerNew := fun _ _ _ _ _ => some 5
    resamplerRun := fun _ c => c
    resamplerGetMethod := fun _ => 0 }

def envNoConv : Env := { envId with resamplerNew := fun _ _ _ _ _ => none }

def outCorked : SourceOutput :=
  { ref := 1, state := SOState.CORKED, name := "a", driver := none,
    source := some 0, sample_spec := specA, channel_map := mapAB, push := true,
    resampler := none, resample_method := 0, index := 3 }

def outLive : SourceOutput :=
  { ref := 1, state := SOState.RUNNING, name := "b", driver := none,
    source := some 0, sample_spec := specA, channel_map := mapAB, push := true,
    resampler := none, resample_method := 0, index := 4 }

/- ### Helper lemmas -/

/-- Uncorking an already-running, still-connected output changes nothing and
wakes nobody, however often it is repeated. -/
theorem corkFalseN_running (n : Nat) :
    ∀ o : SourceOutput, o.ref ≠ 0 → o.state = SOState.RUNNING →
      ∃ o', corkFalseN o n = some (o', []) ∧ o'.state = SOState.RUNNING ∧
        o'.source = o.source ∧ o'.ref = o.ref := by
  induction n with
  | zero => exact fun o _ hr => ⟨o, rfl, hr, rfl, rfl⟩
  | succ n ih =>
    intro o href hr
    have hcork : pa_source_output_cork o false =
        some ({ o with state := SOState.RUNNING }, []) := by
      unfold pa_source_output_cork
      simp [href, hr]
    obtain ⟨o', h1, h2, h3, h4⟩ :=
      ih { o with state := SOState.RUNNING } href rfl
    refine ⟨o', ?_, h2, h3, h4⟩
    unfold corkFalseN
    simp only [hcork, h1, List.nil_append]

/- ### C4 -/

/-- C4: for every source output in the CORKED state with a configured
delivery hook and every non-empty chunk, Push returns with no events at all:
the hook is not invoked, the resampler is not run, and no error is
reported. -/
theorem c4_push_corked_drops (env : Env) (o : SourceOutput) (chunk : Chunk)
    (hlen : chunk.length ≠ 0) (hhook : o.push = true)
    (hc : o.state = SOState.CORKED) :
    pa_source_output_push env o chunk = some [] := by
  unfold pa_source_output_push
  simp [hlen, hhook, hc]

/-- Witness for C4 at a concrete corked output and chunk. -/
theorem c4_push_corked_drops_witness :
    (([42, 17] : Chunk).length ≠ 0 ∧ outCorked.push = true ∧
      outCorked.state = SOState.CORKED) ∧
    pa_source_output_push envId outCorked [42, 17] = some [] :=
  ⟨⟨by decide, by decide, by decide⟩,
    c4_push_corked_drops envId outCorked [42, 17] (by decide) (by decide) (by decide)⟩

/- ### C5 -/

/-- C5: for every source output in the RUNNING state with no resampler and a
configured delivery hook, Push with a non-empty chunk invokes the hook
exactly once, with exactly the input chunk. -/
theorem c5_push_running_delivers_verbatim (env : Env) (o : SourceOutput)
    (chunk : Chunk) (hlen : chunk.length ≠ 0) (hhook : o.push = true)
    (hr : o.state = SOState.RUNNING) (hres : o.resampler = none) :
    pa_source_output_push env o chunk = some [Event.deliver chunk] := by
  unfold pa_source_output_push
  simp [hlen, hhook, hr, hres]

/-- Witness for C5 at a concrete running output and chunk. -/
theorem c5_push_running_delivers_verbatim_witness :
    (([7, 8, 9] : Chunk).length ≠ 0 ∧ outLive.push = true ∧
      outLive.state = SOState.RUNNING ∧ outLive.resampler = none) ∧
    pa_source_output_push envId outLive [7, 8, 9] = some [Event.deliver [7, 8, 9]] :=
  ⟨⟨by decide, by decide, by decide, by decide⟩,
    c5_push_running_delivers_verbatim envId outLive [7, 8, 9]
      (by decide) (by decide) (by decide) (by decide)⟩

/- ### C3 -/

/-- C3: for every connected (not DISCONNECTED) output, Cork emits exactly one
source-wake notification if and only if the prior state was CORKED and the
flag is false (otherwise it emits nothing); Cork(true) then Cork(false) wakes
the source exactly once, on the false edge; and repeated Cork(false) calls
from the RUNNING state wake it zero times. -/
theorem c3_cork_wakes_only_on_uncork_edge (o : SourceOutput) (sidx : Nat)
    (href : o.ref ≠ 0) (hnd : o.state ≠ SOState.DISCONNECTED)
    (hsrc : o.source = some sidx) :
    (∀ b, ∃ o' evs, pa_source_output_cork o b = some (o', evs) ∧
       (evs = [Event.sourceNotify sidx] ↔ o.state = SOState.CORKED ∧ b = false) ∧
       (evs = [Event.sourceNotify sidx] ∨ evs = [])) ∧
    (∃ o1 o2, pa_source_output_cork o true = some (o1, []) ∧
       pa_source_output_cork o1 false = some (o2, [Event.sourceNotify sidx])) ∧
    (o.state = SOState.RUNNING → ∀ n, ∃ o', corkFalseN o n = some (o', []) ∧
       o'.state = SOState.RUNNING) := by
  refine ⟨?_, ?_, ?_⟩
  · intro b
    by_cases hck : o.state = SOState.CORKED ∧ b = false
    · refine ⟨{ o with state := if b then SOState.CORKED else SOState.RUNNING },
        [Event.sourceNotify sidx], ?_, by simp [hck], Or.inl rfl⟩
      unfold pa_source_output_cork
      simp [href, hnd, hck, hsrc]
    · refine ⟨{ o with state := if b then SOState.CORKED else SOState.RUNNING },
        [], ?_, by simp [hck], Or.inr rfl⟩
      unfold pa_source_output_cork
      simp [href, hnd, hck]
  · refine ⟨{ o with state := SOState.CORKED },
      { o with state := SOState.RUNNING }, ?_, ?_⟩
    · unfold pa_source_output_cork
      simp [href, hnd]
    · unfold pa_source_output_cork
      simp [href, hsrc]
  · intro hr n
    obtain ⟨o', h1, h2, _, _⟩ := corkFalseN_running n o href hr
    exact ⟨o', h1, h2⟩

/-- Witness for C3 at a concrete connected output. -/
theorem c3_cork_wakes_only_on_uncork_edge_witness :
    (outLive.ref ≠ 0 ∧ outLive.state ≠ SOState.DISCONNECTED ∧
      outLive.source = some 0) ∧
    (∃ o1 o2, pa_source_output_cork outLive true = some (o1, []) ∧
      pa_source_output_cork o1 false = some (o2, [Event.sourceNotify 0])) :=
  ⟨⟨by decide, by decide, by decide⟩,
    (c3_cork_wakes_only_on_uncork_edge outLive 0 (by decide) (by decide)
      (by decide)).2.1⟩

/- ### C10 -/

/-- C10: for every source output on which Rename may be called (reference
held, source association present — the C code dereferences
`o->source->core`) and every valid UTF-8 name, Rename replaces the stored
name (even with an identical one) and posts exactly one CHANGE event. -/
theorem c10_rename_replaces_name_posts_change (env : Env) (o : SourceOutput)
    (name : String) (sidx : Nat) (_hutf : env.utf8Valid name = true)
    (href : o.ref ≠ 0) (hsrc : o.source = some sidx) :
    pa_source_output_set_name o name =
      some ({ o with name := name }, [Event.subChange o.index]) := by
  unfold pa_source_output_set_name
  simp [href, hsrc]

/-- Witness for C10, renaming a concrete output to its existing name. -/
theorem c10_rename_replaces_name_posts_change_witness :
    (envId.utf8Valid "b" = true ∧ outLive.ref ≠ 0 ∧ outLive.source = some 0) ∧
    pa_source_output_set_name outLive "b" =
      some ({ outLive with name := "b" }, [Event.subChange outLive.index]) :=
  ⟨⟨rfl, by decide, by decide⟩,
    c10_rename_replaces_name_posts_change envId outLive "b" 0 rfl (by decide)
      (by decide)⟩

/- ### C7 -/

/-- C7: for every running source whose member set already holds
`PA_MAX_OUTPUTS_PER_SOURCE` outputs, Create returns the NULL result and the
whole system state — member count, global registry, member set — is exactly
as before, with no events emitted. -/
theorem c7_create_fails_at_capacity (env : Env) (sys : Sys) (sidx : Nat)
    (driver : Option String) (name : String) (spec : SampleSpec)
    (map? : Option ChannelMap) (rm : Int) (s : Source)
    (hs : lookupA sys.sources sidx = some s)
    (hrun : s.state = SourceState.RUNNING)
    (hfull : PA_MAX_OUTPUTS_PER_SOURCE ≤ s.outputs.length) :
    pa_source_output_new env sys sidx driver name spec map? rm =
      some (sys, [], none) := by
  unfold pa_source_output_new
  simp only [hs]
  rw [if_neg (by simp [hrun])]
  repeat' split <;> first
    | rfl
    | exact absurd hfull (by assumption)
    | simp_all

def srcFull : Source :=
  { index := 0, state := SourceState.RUNNING, sample_spec := specA,
    channel_map := mapAB, outputs := List.range 32 }

def sysFull : Sys :=
  { core := { source_outputs := [], regNext := 0, resample_method := 0 },
    sources := [(0, srcFull)], objs := [], nextOid := 100 }

/-- Witness for C7: creating on a source already holding 32 outputs fails
and changes nothing. -/
theorem c7_create_fails_at_capacity_witness :
    (lookupA sysFull.sources 0 = some srcFull ∧
      srcFull.state = SourceState.RUNNING ∧
      PA_MAX_OUTPUTS_PER_SOURCE ≤ srcFull.outputs.length) ∧
    pa_source_output_new envId sysFull 0 none "n" specA none 0 =
      some (sysFull, [], none) :=
  ⟨⟨by decide, by decide, by decide⟩,
    c7_create_fails_at_capacity envId sysFull 0 none "n" specA none 0 srcFull
      (by decide) (by decide) (by decide)⟩

/- ### Association-list lemmas -/

theorem lookupA_setA_self {α : Type} (l : List (Nat × α)) (k : Nat) (v w : α)
    (h : lookupA l k = some w) : lookupA (setA l k v) k = some v := by
  induction l with
  | nil => simp [lookupA] at h
  | cons p t ih =>
    obtain ⟨a, b⟩ := p
    by_cases ha : a = k
    · simp [setA, lookupA, ha]
    · simp only [setA, lookupA, if_neg ha] at h ⊢
      exact ih h

theorem lookupA_setA_ne {α : Type} (l : List (Nat × α)) (k k' : Nat) (v : α)
    (hne : k ≠ k') : lookupA (setA l k v) k' = lookupA l k' := by
  induction l with
  | nil => simp [setA]
  | cons p t ih =>
    obtain ⟨a, b⟩ := p
    by_cases ha : a = k
    · subst ha
      simp [setA, lookupA, hne, ih]
    · by_cases hak : a = k'
      · subst hak
        simp [setA, lookupA, ha]
      · simp [setA, lookupA, ha, hak, ih]

/- ### C6 -/

/-- C6: moving an output that owns a resampler stage between two sources of
identical shape succeeds, keeps the very same stage handle (no stage is
built, none is freed — the event list holds only the CHANGE post and the
destination wake-up), and afterwards the output is in the destination's
member set and no longer in the origin's. -/
theorem c6_move_identical_shapes_reuses_stage (env : Env) (sys : Sys)
    (oid didx oidx : Nat) (o : SourceOutput) (dest origin : Source)
    (garbage : Option Nat) (r : Nat)
    (ho : lookupA sys.objs oid = some o) (href : o.ref ≠ 0)
    (hdest : lookupA sys.sources didx = some dest)
    (hsrc : o.source = some oidx) (hne : didx ≠ oidx)
    (horigin : lookupA sys.sources oidx = some origin)
    (hroom : dest.outputs.length < PA_MAX_OUTPUTS_PER_SOURCE)
    (hres : o.resampler = some r)
    (hspec : origin.sample_spec = dest.sample_spec)
    (hmap : origin.channel_map = dest.channel_map) :
    ∃ sys', pa_source_output_move_to env sys oid didx garbage =
        some (sys', [Event.subChange o.index, Event.sourceNotify didx], 0) ∧
      (∃ o', lookupA sys'.objs oid = some o' ∧ o'.resampler = some r ∧
        o'.source = some didx) ∧
      (∃ d, lookupA sys'.sources didx = some d ∧ oid ∈ d.outputs) ∧
      (∃ og, lookupA sys'.sources oidx = some og ∧ oid ∉ og.outputs) := by
  have hne' : oidx ≠ didx := fun h => hne h.symm
  have hcap : ¬ PA_MAX_OUTPUTS_PER_SOURCE ≤ dest.outputs.length := by omega
  have hd2 : lookupA (setA sys.sources oidx
      { origin with outputs := origin.outputs.filter (fun x => ¬ x = oid) }) didx =
      some dest := by
    rw [lookupA_setA_ne _ _ _ _ hne']
    exact hdest
  refine ⟨{ core := sys.core,
            sources := setA (setA sys.sources oidx
                { origin with outputs := origin.outputs.filter (fun x => ¬ x = oid) })
              didx { dest with outputs := oid :: dest.outputs },
            objs := setA sys.objs oid { o with source := some didx, resampler := o.resampler },
            nextOid := sys.nextOid }, ?_, ?_, ?_, ?_⟩
  · unfold pa_source_output_move_to
    simp [ho, href, hdest, horigin, hsrc, hne', hcap, hres, hspec, hmap]
  · exact ⟨_, lookupA_setA_self sys.objs oid _ o ho, hres, rfl⟩
  · exact ⟨_, lookupA_setA_self _ didx _ dest hd2, List.mem_cons_self _ _⟩
  · refine ⟨{ origin with outputs := origin.outputs.filter (fun x => ¬ x = oid) }, ?_, ?_⟩
    · rw [lookupA_setA_ne _ didx oidx _ hne]
      exact lookupA_setA_self sys.sources oidx _ origin horigin
    · simp

/- Fixtures: an output owning stage 7, attached to source 0; sources 0 and 1
share the shape `specB`, the stream itself has shape `specA`. -/

def outMoved : SourceOutput :=
  { ref := 1, state := SOState.RUNNING, name := "x", driver := none,
    source := some 0, sample_spec := specA, channel_map := mapAB, push := false,
    resampler := some 7, resample_method := 0, index := 10 }

def srcOriginB : Source :=
  { index := 0, state := SourceState.RUNNING, sample_spec := specB,
    channel_map := mapAB, outputs := [10] }

def srcDestB : Source :=
  { index := 1, state := SourceState.RUNNING, sample_spec := specB,
    channel_map := mapAB, outputs := [] }

def sysC1 : Sys :=
  { core := { source_outputs := [(10, 10)], regNext := 11, resample_method := 0 },
    sources := [(0, srcOriginB), (1, srcDestB)], objs := [(10, outMoved)],
    nextOid := 11 }

/-- Witness for C6: the concrete move of output 10 from source 0 to the
identically-shaped source 1 reuses stage 7. -/
theorem c6_move_identical_shapes_reuses_stage_witness :
    (lookupA sysC1.objs 10 = some outMoved ∧ outMoved.ref ≠ 0 ∧
      lookupA sysC1.sources 1 = some srcDestB ∧ outMoved.source = some 0 ∧
      (1 : Nat) ≠ 0 ∧ lookupA sysC1.sources 0 = some srcOriginB ∧
      srcDestB.outputs.length < PA_MAX_OUTPUTS_PER_SOURCE ∧
      outMoved.resampler = some 7 ∧
      srcOriginB.sample_spec = srcDestB.sample_spec ∧
      srcOriginB.channel_map = srcDestB.channel_map) ∧
    (∃ sys', pa_source_output_move_to envNoConv sysC1 10 1 none =
        some (sys', [Event.subChange outMoved.index, Event.sourceNotify 1], 0) ∧
      (∃ o', lookupA sys'.objs 10 = some o' ∧ o'.resampler = some 7 ∧
        o'.source = some 1) ∧
      (∃ d, lookupA sys'.sources 1 = some d ∧ 10 ∈ d.outputs) ∧
      (∃ og, lookupA sys'.sources 0 = some og ∧ 10 ∉ og.outputs)) :=
  ⟨⟨by decide, by decide, by decide, by decide, by decide, by decide, by decide,
     by decide, by decide, by decide⟩,
    c6_move_identical_shapes_reuses_stage envNoConv sysC1 10 1 0 outMoved
      srcDestB srcOriginB none 7 (by decide) (by decide) (by decide) (by decide)
      (by decide) (by decide) (by decide) (by decide) (by decide) (by decide)⟩

/- ### C1 -/

/-- Counterexample to C1 as stated: output 10 has shape `specA`, the
destination source 1 has shape `specB` (so the stream's shape differs from
the destination's), the destination has room, and the resampler factory
fails on every request — yet the move succeeds (returns 0) and the output is
re-registered under the destination, because the reuse branch (existing
stage plus identical origin/destination shapes) takes priority and never
consults the factory. -/
theorem c1_claim_counterexample :
    (lookupA sysC1.objs 10 = some outMoved ∧ outMoved.source = some 0 ∧
      lookupA sysC1.sources 1 = some srcDestB ∧
      srcDestB.outputs.length < PA_MAX_OUTPUTS_PER_SOURCE ∧
      ¬(outMoved.sample_spec = srcDestB.sample_spec ∧
        outMoved.channel_map = srcDestB.channel_map) ∧
      envNoConv.resamplerNew srcDestB.sample_spec srcDestB.channel_map
        outMoved.sample_spec outMoved.channel_map outMoved.resample_method = none) ∧
    pa_source_output_move_to envNoConv sysC1 10 1 none =
      some ({ core := sysC1.core,
              sources := [(0, { srcOriginB with outputs := [] }),
                          (1, { srcDestB with outputs := [10] })],
              objs := [(10, { outMoved with source := some 1 })],
              nextOid := sysC1.nextOid },
            [Event.subChange 10, Event.sourceNotify 1], 0) :=
  ⟨⟨by decide, by decide, by decide, by decide, by decide, rfl⟩, by decide⟩

/-- C1 (amended): when additionally the reuse case does not apply — the
output owns no stage, or the origin's and destination's shapes differ — a
Move to a different source with room whose shape differs from the stream's
and for which the factory fails returns failure and changes nothing at all:
same system state (attachment, member sets, resampler field), no events. -/
theorem c1_move_failed_conversion_changes_nothing (env : Env) (sys : Sys)
    (oid didx oidx : Nat) (o : SourceOutput) (dest origin : Source)
    (garbage : Option Nat)
    (ho : lookupA sys.objs oid = some o) (href : o.ref ≠ 0)
    (hdest : lookupA sys.sources didx = some dest)
    (hsrc : o.source = some oidx) (hne : didx ≠ oidx)
    (horigin : lookupA sys.sources oidx = some origin)
    (hroom : dest.outputs.length < PA_MAX_OUTPUTS_PER_SOURCE)
    (hnoreuse : o.resampler = none ∨
      ¬(origin.sample_spec = dest.sample_spec ∧ origin.channel_map = dest.channel_map))
    (hdiff : ¬(o.sample_spec = dest.sample_spec ∧ o.channel_map = dest.channel_map))
    (hfail : env.resamplerNew dest.sample_spec dest.channel_map o.sample_spec
      o.channel_map o.resample_method = none) :
    pa_source_output_move_to env sys oid didx garbage = some (sys, [], -1) := by
  have hne' : oidx ≠ didx := fun h => hne h.symm
  have hcap : ¬ PA_MAX_OUTPUTS_PER_SOURCE ≤ dest.outputs.length := by omega
  have hcond : ¬(o.resampler ≠ none ∧ origin.sample_spec = dest.sample_spec ∧
      origin.channel_map = dest.channel_map) := by
    rcases hnoreuse with h | h
    · intro hc
      exact hc.1 h
    · intro hc
      exact h ⟨hc.2.1, hc.2.2⟩
  unfold pa_source_output_move_to
  simp [ho, href, hdest, hsrc, horigin, hne', hcap, hcond, hdiff, hfail]

/- Fixture for the C1 witness: a stage-less output whose shape differs from
the destination's, with a factory that cannot convert. -/

def outW : SourceOutput :=
  { ref := 1, state := SOState.RUNNING, name := "w", driver := none,
    source := some 0, sample_spec := specA, channel_map := mapAB, push := false,
    resampler := none, resample_method := 0, index := 30 }

def srcOriginW : Source :=
  { index := 0, state := SourceState.RUNNING, sample_spec := specA,
    channel_map := mapAB, outputs := [30] }

def srcDestW : Source :=
  { index := 1, state := SourceState.RUNNING, sample_spec := specB,
    channel_map := mapAB, outputs := [] }

def sysW : Sys :=
  { core := { source_outputs := [(30, 30)], regNext := 31, resample_method := 0 },
    sources := [(0, srcOriginW), (1, srcDestW)], objs := [(30, outW)],
    nextOid := 31 }

/-- Witness for the amended C1 at a concrete failing conversion. -/
theorem c1_move_failed_conversion_changes_nothing_witness :
    (lookupA sysW.objs 30 = some outW ∧ outW.ref ≠ 0 ∧
      lookupA sysW.sources 1 = some srcDestW ∧ outW.source = some 0 ∧
      (1 : Nat) ≠ 0 ∧ lookupA sysW.sources 0 = some srcOriginW ∧
      srcDestW.outputs.length < PA_MAX_OUTPUTS_PER_SOURCE ∧
      outW.resampler = none ∧
      ¬(outW.sample_spec = srcDestW.sample_spec ∧
        outW.channel_map = srcDestW.channel_map) ∧
      envNoConv.resamplerNew srcDestW.sample_spec srcDestW.channel_map
        outW.sample_spec outW.channel_map outW.resample_method = none) ∧
    pa_source_output_move_to envNoConv sysW 30 1 none = some (sysW, [], -1) :=
  ⟨⟨by decide, by decide, by decide, by decide, by decide, by decide, by decide,
     by decide, by decide, rfl⟩,
    c1_move_failed_conversion_changes_nothing envNoConv sysW 30 1 0 outW
      srcDestW srcOriginW none (by decide) (by decide) (by decide) (by decide)
      (by decide) (by decide) (by decide) (Or.inl (by decide)) (by decide) rfl⟩

/- ### C2 -/

/- Fixture for C2: output 20 owns no stage and its own shape equals the
destination's, so in the C code neither the reuse branch nor the build
branch assigns `new_resampler`, and line 301 reads the uninitialized
local. -/

def outPlain : SourceOutput :=
  { ref := 1, state := SOState.RUNNING, name := "p", driver := none,
    source := some 0, sample_spec := specA, channel_map := mapAB, push := false,
    resampler := none, resample_method := 0, index := 20 }

def srcOriginC2 : Source :=
  { index := 0, state := SourceState.RUNNING, sample_spec := specB,
    channel_map := mapAB, outputs := [20] }

def srcDestC2 : Source :=
  { index := 1, state := SourceState.RUNNING, sample_spec := specA,
    channel_map := mapAB, outputs := [] }

def sysC2 : Sys :=
  { core := { source_outputs := [(20, 20)], regNext := 21, resample_method := 0 },
    sources := [(0, srcOriginC2), (1, srcDestC2)], objs := [(20, outPlain)],
    nextOid := 21 }

/-- C2 fails on the code: on the path where no stage is needed (no reuse, and
the stream's own shape already equals the destination's) the C function reads
the uninitialized local `new_resampler`; whenever the indeterminate value
(here modelled as stage handle 42) differs from the old field, the move
"succeeds" but stores that garbage value in the output's resampler field
instead of leaving the field unchanged. -/
theorem c2_uninitialized_new_resampler_bug :
    outPlain.resampler = none ∧
    pa_source_output_move_to envId sysC2 20 1 (some 42) =
      some ({ core := sysC2.core,
              sources := [(0, { srcOriginC2 with outputs := [] }),
                          (1, { srcDestC2 with outputs := [20] })],
              objs := [(20, { outPlain with source := some 1, resampler := some 42 })],
              nextOid := sysC2.nextOid },
            [Event.subChange 20, Event.sourceNotify 1], 0) :=
  ⟨by decide, by decide⟩

/- ### C9 -/

theorem lookupA_cons_self {α : Type} (l : List (Nat × α)) (k : Nat) (v : α) :
    lookupA ((k, v) :: l) k = some v := by
  simp [lookupA]

theorem lookupA_filter_self {α : Type} (l : List (Nat × α)) (k : Nat) :
    lookupA (l.filter (fun p => ¬ p.1 = k)) k = none := by
  induction l with
  | nil => rfl
  | cons p t ih =>
    obtain ⟨a, b⟩ := p
    by_cases ha : a = k
    · rw [List.filter_cons_of_neg (by simp [ha])]
      exact ih
    · rw [List.filter_cons_of_pos (by simp [ha])]
      simp only [lookupA, if_neg ha]
      exact ih

theorem ref_explicit (sys : Sys) (oid : Nat) (o : SourceOutput)
    (ho : lookupA sys.objs oid = some o) (hr : o.ref ≠ 0) :
    pa_source_output_ref sys oid =
      some { sys with objs := setA sys.objs oid { o with ref := o.ref + 1 } } := by
  unfold pa_source_output_ref
  simp [ho, hr]

theorem unref_dec_explicit (sys : Sys) (oid : Nat) (o : SourceOutput)
    (ho : lookupA sys.objs oid = some o) (hr : 2 ≤ o.ref) :
    pa_source_output_unref sys oid =
      some ({ sys with objs := setA sys.objs oid { o with ref := o.ref - 1 } }, []) := by
  unfold pa_source_output_unref
  have h0 : ¬ o.ref = 0 := by omega
  have h1 : ¬ o.ref = 1 := by omega
  simp [ho, h0, h1]

theorem unref_last_explicit (sys : Sys) (oid : Nat) (o : SourceOutput)
    (sidx : Nat) (s : Source)
    (ho : lookupA sys.objs oid = some o) (hr : o.ref = 1)
    (hst : o.state ≠ SOState.DISCONNECTED)
    (hsrc : o.source = some sidx) (hs : lookupA sys.sources sidx = some s) :
    pa_source_output_unref sys oid =
      some ({ core := { source_outputs := sys.core.source_outputs.filter (fun p => ¬ p.2 = oid),
                        regNext := sys.core.regNext,
                        resample_method := sys.core.resample_method },
              sources := setA sys.sources sidx
                { s with outputs := s.outputs.filter (fun x => ¬ x = oid) },
              objs := (setA (setA sys.objs oid { o with ref := 0 }) oid
                  { o with
                      ref := 0, source := none, push := false,
                      state := SOState.DISCONNECTED }).filter (fun p => ¬ p.1 = oid),
              nextOid := sys.nextOid },
            [Event.subRemove o.index] ++
              (match o.resampler with
               | some r => [Event.resamplerFree r]
               | none => []) ++ [Event.freed oid]) := by
  have hz : lookupA (setA sys.objs oid { o with ref := 0 }) oid =
      some { o with ref := 0 } := lookupA_setA_self _ _ _ _ ho
  have hdis : pa_source_output_disconnect
      { sys with objs := setA sys.objs oid { o with ref := 0 } } oid =
      some ({ core := { sys.core with
                source_outputs := sys.core.source_outputs.filter (fun p => ¬ p.2 = oid) },
              sources := setA sys.sources sidx
                { s with outputs := s.outputs.filter (fun x => ¬ x = oid) },
              objs := setA (setA sys.objs oid { o with ref := 0 }) oid
                { o with
                    ref := 0, source := none, push := false,
                    state := SOState.DISCONNECTED },
              nextOid := sys.nextOid },
            [Event.subRemove o.index]) := by
    unfold pa_source_output_disconnect
    simp only [hz]
    rw [if_neg (by simpa using hst)]
    simp only [hsrc]
    simp only [hs]
  have hz2 : lookupA (setA (setA sys.objs oid { o with ref := 0 }) oid
      { o with
          ref := 0, source := none, push := false,
          state := SOState.DISCONNECTED }) oid =
      some { o with
          ref := 0, source := none, push := false,
          state := SOState.DISCONNECTED } := lookupA_setA_self _ _ _ _ hz
  have h0 : ¬ o.ref = 0 := by omega
  unfold pa_source_output_unref
  simp only [ho]
  rw [if_neg h0, if_pos hr]
  unfold source_output_free
  simp only [hz]
  rw [if_pos hst, hdis]
  simp only [hz2]

theorem unref_last_disconnected_explicit (sys : Sys) (oid : Nat)
    (o : SourceOutput) (ho : lookupA sys.objs oid = some o) (hr : o.ref = 1)
    (hst : o.state = SOState.DISCONNECTED) :
    pa_source_output_unref sys oid =
      some ({ sys with
                objs := (setA sys.objs oid { o with ref := 0 }).filter
                  (fun p => ¬ p.1 = oid) },
            (match o.resampler with
             | some r => [Event.resamplerFree r]
             | none => []) ++ [Event.freed oid]) := by
  have hz : lookupA (setA sys.objs oid { o with ref := 0 }) oid =
      some { o with ref := 0 } := lookupA_setA_self _ _ _ _ ho
  have h0 : ¬ o.ref = 0 := by omega
  have hnd : ¬ (o.state ≠ SOState.DISCONNECTED) := by simp [hst]
  unfold pa_source_output_unref
  simp only [ho]
  rw [if_neg h0, if_pos hr]
  unfold source_output_free
  simp only [hz]
  rw [if_neg hnd]
  simp only [hz]
  simp

/-- C9: the reference count starts at 1 at Create; ref increments it; unref
on a zero count is not permitted (the asserted precondition); unref with
count at least 2 just decrements, emitting nothing; unref with count 1 runs
teardown exactly once — first the Disconnect events (when not already
disconnected), then the resampler free, then the storage free, after which
the object is gone from storage; and a Create-fresh object (count 1) put
through two refs and three unrefs is freed exactly once, on the third
unref. -/
theorem c9_refcount_teardown :
    (∀ env sys sidx driver name spec map? rm sys' evs oid,
       pa_source_output_new env sys sidx driver name spec map? rm =
         some (sys', evs, some oid) →
       ∃ o, lookupA sys'.objs oid = some o ∧ o.ref = 1) ∧
    (∀ sys oid o, lookupA sys.objs oid = some o → o.ref ≠ 0 →
       ∃ sys1 o1, pa_source_output_ref sys oid = some sys1 ∧
         lookupA sys1.objs oid = some o1 ∧ o1.ref = o.ref + 1) ∧
    (∀ sys oid o, lookupA sys.objs oid = some o → o.ref = 0 →
       pa_source_output_unref sys oid = none) ∧
    (∀ sys oid o, lookupA sys.objs oid = some o → 2 ≤ o.ref →
       ∃ sys1 o1, pa_source_output_unref sys oid = some (sys1, []) ∧
         lookupA sys1.objs oid = some o1 ∧ o1.ref = o.ref - 1) ∧
    (∀ sys oid o sidx s, lookupA sys.objs oid = some o → o.ref = 1 →
       o.state ≠ SOState.DISCONNECTED → o.source = some sidx →
       lookupA sys.sources sidx = some s →
       ∃ sys1, pa_source_output_unref sys oid =
           some (sys1, [Event.subRemove o.index] ++
             (match o.resampler with
              | some r => [Event.resamplerFree r]
              | none => []) ++ [Event.freed oid]) ∧
         lookupA sys1.objs oid = none) ∧
    (∀ sys oid o, lookupA sys.objs oid = some o → o.ref = 1 →
       o.state = SOState.DISCONNECTED →
       ∃ sys1, pa_source_output_unref sys oid =
           some (sys1, (match o.resampler with
             | some r => [Event.resamplerFree r]
             | none => []) ++ [Event.freed oid]) ∧
         lookupA sys1.objs oid = none) ∧
    (∀ sys oid o sidx s, lookupA sys.objs oid = some o → o.ref = 1 →
       o.state ≠ SOState.DISCONNECTED → o.source = some sidx →
       lookupA sys.sources sidx = some s →
       ∃ sys1 sys2 sys3 sys4 sys5 evs5,
         pa_source_output_ref sys oid = some sys1 ∧
         pa_source_output_ref sys1 oid = some sys2 ∧
         pa_source_output_unref sys2 oid = some (sys3, []) ∧
         pa_source_output_unref sys3 oid = some (sys4, []) ∧
         pa_source_output_unref sys4 oid = some (sys5, evs5) ∧
         evs5.count (Event.freed oid) = 1) := by
  refine ⟨?_, ?_, ?_, ?_, ?_, ?_, ?_⟩
  · intro env sys sidx driver name spec map? rm sys' evs oid h
    unfold pa_source_output_new at h
    repeat' split at h <;> try simp at h
    all_goals obtain ⟨h1, hsys, hevs, hoid⟩ := h
    all_goals subst hsys
    all_goals subst hoid
    all_goals exact ⟨_, lookupA_cons_self _ _ _, rfl⟩
  · intro sys oid o ho hr
    exact ⟨_, _, ref_explicit sys oid o ho hr, lookupA_setA_self _ _ _ _ ho, rfl⟩
  · intro sys oid o ho hr
    unfold pa_source_output_unref
    simp [ho, hr]
  · intro sys oid o ho hr
    exact ⟨_, _, unref_dec_explicit sys oid o ho hr,
      lookupA_setA_self _ _ _ _ ho, rfl⟩
  · intro sys oid o sidx s ho hr hst hsrc hs
    refine ⟨_, unref_last_explicit sys oid o sidx s ho hr hst hsrc hs, ?_⟩
    exact lookupA_filter_self _ _
  · intro sys oid o ho hr hst
    refine ⟨_, unref_last_disconnected_explicit sys oid o ho hr hst, ?_⟩
    exact lookupA_filter_self _ _
  · intro sys oid o sidx s ho hr hst hsrc hs
    have hA := ref_explicit sys oid o ho (by omega)
    have hoA : lookupA (setA sys.objs oid { o with ref := o.ref + 1 }) oid =
        some { o with ref := o.ref + 1 } := lookupA_setA_self _ _ _ _ ho
    have hB := ref_explicit
      { sys with objs := setA sys.objs oid { o with ref := o.ref + 1 } } oid
      { o with ref := o.ref + 1 } hoA (show o.ref + 1 ≠ 0 by omega)
    have hoB : lookupA (setA (setA sys.objs oid { o with ref := o.ref + 1 }) oid
        { o with ref := o.ref + 1 + 1 }) oid =
        some { o with ref := o.ref + 1 + 1 } := lookupA_setA_self _ _ _ _ hoA
    have hC := unref_dec_explicit
      { sys with
          objs := (setA (setA sys.objs oid { o with ref := o.ref + 1 }) oid
            { o with ref := o.ref + 1 + 1 }) } oid
      { o with ref := o.ref + 1 + 1 } hoB (show 2 ≤ o.ref + 1 + 1 by omega)
    have hoC : lookupA (setA (setA (setA sys.objs oid { o with ref := o.ref + 1 }) oid
        { o with ref := o.ref + 1 + 1 }) oid { o with ref := o.ref + 1 + 1 - 1 }) oid =
        some { o with ref := o.ref + 1 + 1 - 1 } := lookupA_setA_self _ _ _ _ hoB
    have hD := unref_dec_explicit
      { sys with
          objs := (setA (setA (setA sys.objs oid { o with ref := o.ref + 1 }) oid
            { o with ref := o.ref + 1 + 1 }) oid { o with ref := o.ref + 1 + 1 - 1 }) } oid
      { o with ref := o.ref + 1 + 1 - 1 } hoC (show 2 ≤ o.ref + 1 + 1 - 1 by omega)
    have hoD : lookupA (setA (setA (setA (setA sys.objs oid { o with ref := o.ref + 1 }) oid
        { o with ref := o.ref + 1 + 1 }) oid { o with ref := o.ref + 1 + 1 - 1 }) oid
        { o with ref := o.ref + 1 + 1 - 1 - 1 }) oid =
        some { o with ref := o.ref + 1 + 1 - 1 - 1 } := lookupA_setA_self _ _ _ _ hoC
    have hE := unref_last_explicit
      { sys with
          objs := (setA (setA (setA (setA sys.objs oid { o with ref := o.ref + 1 }) oid
            { o with ref := o.ref + 1 + 1 }) oid { o with ref := o.ref + 1 + 1 - 1 }) oid
            { o with ref := o.ref + 1 + 1 - 1 - 1 }) } oid
      { o with ref := o.ref + 1 + 1 - 1 - 1 } sidx s hoD
      (show o.ref + 1 + 1 - 1 - 1 = 1 by omega) hst hsrc hs
    refine ⟨_, _, _, _, _, _, hA, hB, hC, hD, hE, ?_⟩
    show ([Event.subRemove o.index] ++
        (match o.resampler with
         | some r => [Event.resamplerFree r]
         | none => []) ++ [Event.freed oid]).count (Event.freed oid) = 1
    cases hre : o.resampler <;>
      simp [List.count_append, List.count_cons, beq_iff_eq]

def outR : SourceOutput :=
  { ref := 1, state := SOState.RUNNING, name := "r", driver := none,
    source := some 0, sample_spec := specA, channel_map := mapAB, push := false,
    resampler := some 9, resample_method := 0, index := 40 }

def srcR : Source :=
  { index := 0, state := SourceState.RUNNING, sample_spec := specA,
    channel_map := mapAB, outputs := [40] }

def sysR : Sys :=
  { core := { source_outputs := [(40, 40)], regNext := 41, resample_method := 0 },
    sources := [(0, srcR)], objs := [(40, outR)], nextOid := 41 }

/-- Witness for C9: a concrete live object with count 1, two refs and three
unrefs, freed exactly once on the third unref. -/
theorem c9_refcount_teardown_witness :
    (lookupA sysR.objs 40 = some outR ∧ outR.ref = 1 ∧
      outR.state ≠ SOState.DISCONNECTED ∧ outR.source = some 0 ∧
      lookupA sysR.sources 0 = some srcR) ∧
    (∃ sys1 sys2 sys3 sys4 sys5 evs5,
      pa_source_output_ref sysR 40 = some sys1 ∧
      pa_source_output_ref sys1 40 = some sys2 ∧
      pa_source_output_unref sys2 40 = some (sys3, []) ∧
      pa_source_output_unref sys3 40 = some (sys4, []) ∧
      pa_source_output_unref sys4 40 = some (sys5, evs5) ∧
      evs5.count (Event.freed 40) = 1) :=
  ⟨⟨by decide, by decide, by decide, by decide, by decide⟩,
    c9_refcount_teardown.2.2.2.2.2.2 sysR 40 outR 0 srcR (by decide) (by decide)
      (by decide) (by decide) (by decide)⟩

/- ### C8 -/

/-- System-level wrapper: cork the stored object in place. -/
def sysCork (sys : Sys) (oid : Nat) (b : Bool) : Option (Sys × List Event) :=
  match lookupA sys.objs oid with
  | none => none
  | some o =>
    match pa_source_output_cork o b with
    | none => none
    | some (o1, evs) => some ({ sys with objs := setA sys.objs oid o1 }, evs)

/-- System-level wrapper: rename the stored object in place. -/
def sysSetName (sys : Sys) (oid : Nat) (name : String) : Option (Sys × List Event) :=
  match lookupA sys.objs oid with
  | none => none
  | some o =>
    match pa_source_output_set_name o name with
    | none => none
    | some (o1, evs) => some ({ sys with objs := setA sys.objs oid o1 }, evs)

/-- The object id is registered in the global registry (under some index). -/
def InRegistry (sys : Sys) (oid : Nat) : Prop :=
  ∃ i, (i, oid) ∈ sys.core.source_outputs

/-- All-or-nothing membership: every live object with a source association is
in the global registry (under its own index) and in exactly its source's
member set; every live object without one (disconnected) is in neither
collection. -/
def MemInv (sys : Sys) : Prop :=
  ∀ oid o, lookupA sys.objs oid = some o →
    (∀ sidx, o.source = some sidx →
       (o.index, oid) ∈ sys.core.source_outputs ∧
       (∃ s, lookupA sys.sources sidx = some s ∧ oid ∈ s.outputs) ∧
       (∀ sidx2 s2, ¬ sidx2 = sidx → lookupA sys.sources sidx2 = some s2 →
          oid ∉ s2.outputs)) ∧
    (o.source = none →
       (¬ InRegistry sys oid) ∧
       (∀ sidx2 s2, lookupA sys.sources sidx2 = some s2 → oid ∉ s2.outputs))

/-- Object ids below the allocation counter, everywhere they can occur. -/
def Fresh (sys : Sys) : Prop :=
  (∀ oid o, lookupA sys.objs oid = some o → oid < sys.nextOid) ∧
  (∀ sidx s, lookupA sys.sources sidx = some s →
     ∀ oid, oid ∈ s.outputs → oid < sys.nextOid) ∧
  (∀ i oid, (i, oid) ∈ sys.core.source_outputs → oid < sys.nextOid)

def Inv (sys : Sys) : Prop := Fresh sys ∧ MemInv sys

theorem lookupA_setA_none {α : Type} (l : List (Nat × α)) (k : Nat) (v : α)
    (h : lookupA l k = none) : lookupA (setA l k v) k = none := by
  induction l with
  | nil => simp [setA, lookupA]
  | cons p t ih =>
    obtain ⟨a, b⟩ := p
    by_cases ha : a = k
    · simp [lookupA, ha] at h
    · simp only [setA, lookupA, if_neg ha] at h ⊢
      exact ih h

theorem lookupA_setA_cases {α : Type} (l : List (Nat × α)) (k k2 : Nat) (v w : α)
    (h : lookupA (setA l k v) k2 = some w) :
    (k2 = k ∧ w = v) ∨ (¬ k2 = k ∧ lookupA l k2 = some w) := by
  by_cases hk : k2 = k
  · subst hk
    cases hl : lookupA l k2 with
    | none =>
      rw [lookupA_setA_none l k2 v hl] at h
      exact absurd h (by simp)
    | some u =>
      rw [lookupA_setA_self l k2 v u hl] at h
      exact Or.inl ⟨rfl, (Option.some.inj h).symm⟩
  · rw [lookupA_setA_ne l k k2 v (fun hh => hk hh.symm)] at h
    exact Or.inr ⟨hk, h⟩

theorem lookupA_filter_ne {α : Type} (l : List (Nat × α)) (k k2 : Nat)
    (hne : ¬ k2 = k) :
    lookupA (l.filter (fun p => ¬ p.1 = k)) k2 = lookupA l k2 := by
  induction l with
  | nil => rfl
  | cons p t ih =>
    obtain ⟨a, b⟩ := p
    by_cases ha : a = k
    · subst ha
      rw [List.filter_cons_of_neg (by simp)]
      have hak : ¬ a = k2 := fun hh => hne hh.symm
      simp only [lookupA, if_neg hak]
      exact ih
    · rw [List.filter_cons_of_pos (by simp [ha])]
      by_cases hak : a = k2
      · simp only [lookupA, if_pos hak]
      · simp only [lookupA, if_neg hak]
        exact ih

theorem cork_fields (o : SourceOutput) (b : Bool) (o1 : SourceOutput)
    (evs : List Event) (h : pa_source_output_cork o b = some (o1, evs)) :
    o1.source = o.source ∧ o1.index = o.index := by
  unfold pa_source_output_cork at h
  repeat' split at h
  all_goals simp at h
  all_goals obtain ⟨h1, -⟩ := h
  all_goals subst h1
  all_goals exact ⟨rfl, rfl⟩

theorem set_name_fields (o : SourceOutput) (name : String) (o1 : SourceOutput)
    (evs : List Event) (h : pa_source_output_set_name o name = some (o1, evs)) :
    o1.source = o.source ∧ o1.index = o.index := by
  unfold pa_source_output_set_name at h
  repeat' split at h
  all_goals simp at h
  all_goals obtain ⟨h1, -⟩ := h
  all_goals subst h1
  all_goals exact ⟨rfl, rfl⟩

/-- Replacing a stored object with one that keeps the `source` and `index`
fields preserves the invariant (covers ref, unref-decrement, cork and
rename). -/
theorem Inv_of_objs_update (sys : Sys) (oid : Nat) (o o1 : SourceOutput)
    (ho : lookupA sys.objs oid = some o)
    (hsrc : o1.source = o.source) (hidx : o1.index = o.index)
    (hinv : Inv sys) :
    Inv { sys with objs := setA sys.objs oid o1 } := by
  obtain ⟨⟨hf1, hf2, hf3⟩, hmem⟩ := hinv
  refine ⟨⟨?_, hf2, hf3⟩, ?_⟩
  · intro oid2 o2 h2
    rcases lookupA_setA_cases sys.objs oid oid2 o1 o2 h2 with ⟨he, -⟩ | ⟨-, horig⟩
    · subst he
      exact hf1 oid2 o ho
    · exact hf1 oid2 o2 horig
  · intro oid2 o2 h2
    rcases lookupA_setA_cases sys.objs oid oid2 o1 o2 h2 with ⟨he, hv⟩ | ⟨-, horig⟩
    · subst he
      subst hv
      obtain ⟨hsome, hnone⟩ := hmem oid2 o ho
      constructor
      · intro sidx hsx
        rw [hsrc] at hsx
        obtain ⟨ha, hb, hc⟩ := hsome sidx hsx
        refine ⟨?_, hb, hc⟩
        rw [hidx]
        exact ha
      · intro hsx
        rw [hsrc] at hsx
        exact hnone hsx
    · exact hmem oid2 o2 horig
  -- (sources and registry are unchanged by an objs-only update)

/-- Removing an object from storage preserves the invariant. -/
theorem Inv_objs_remove (sys : Sys) (oid : Nat) (hinv : Inv sys) :
    Inv { sys with objs := sys.objs.filter (fun p => ¬ p.1 = oid) } := by
  obtain ⟨⟨hf1, hf2, hf3⟩, hmem⟩ := hinv
  refine ⟨⟨?_, hf2, hf3⟩, ?_⟩
  · intro oid2 o2 h2
    by_cases he : oid2 = oid
    · subst he
      rw [lookupA_filter_self] at h2
      exact absurd h2 (by simp)
    · rw [lookupA_filter_ne _ _ _ he] at h2
      exact hf1 oid2 o2 h2
  · intro oid2 o2 h2
    by_cases he : oid2 = oid
    · subst he
      rw [lookupA_filter_self] at h2
      exact absurd h2 (by simp)
    · rw [lookupA_filter_ne _ _ _ he] at h2
      exact hmem oid2 o2 h2

/-- Disconnect preserves the invariant. -/
theorem Inv_disconnect (sys : Sys) (oid : Nat) (sys' : Sys) (evs : List Event)
    (hinv : Inv sys) (h : pa_source_output_disconnect sys oid = some (sys', evs)) :
    Inv sys' := by
  obtain ⟨⟨hf1, hf2, hf3⟩, hmem⟩ := hinv
  unfold pa_source_output_disconnect at h
  cases ho : lookupA sys.objs oid with
  | none =>
    simp only [ho] at h
    exact Option.noConfusion h
  | some o =>
    simp only [ho] at h
    by_cases hnd : o.state = SOState.DISCONNECTED
    · rw [if_pos hnd] at h
      exact absurd h (by simp)
    · rw [if_neg hnd] at h
      cases hsrc : o.source with
      | none =>
        simp only [hsrc] at h
        exact Option.noConfusion h
      | some sidx =>
        simp only [hsrc] at h
        cases hs : lookupA sys.sources sidx with
        | none =>
          simp only [hs] at h
          exact Option.noConfusion h
        | some s =>
          simp only [hs, Option.some.injEq, Prod.mk.injEq] at h
          obtain ⟨hsys, -⟩ := h
          subst hsys
          refine ⟨⟨?_, ?_, ?_⟩, ?_⟩
          · intro oid2 o2 h2
            rcases lookupA_setA_cases _ _ _ _ _ h2 with ⟨he, -⟩ | ⟨-, horig⟩
            · subst he
              exact hf1 _ _ ho
            · exact hf1 _ _ horig
          · intro sidx2 s2 h2 x hx
            rcases lookupA_setA_cases _ _ _ _ _ h2 with ⟨he, hv⟩ | ⟨-, horig⟩
            · subst he
              subst hv
              exact hf2 sidx2 s hs x (List.mem_filter.mp hx).1
            · exact hf2 _ _ horig x hx
          · intro i x hix
            exact hf3 i x (List.mem_filter.mp hix).1
          · intro oid2 o2 h2
            rcases lookupA_setA_cases _ _ _ _ _ h2 with ⟨he, hv⟩ | ⟨hne2, horig⟩
            · subst he
              subst hv
              constructor
              · intro sidx2 hbad
                exact absurd hbad (by simp)
              · intro _
                constructor
                · rintro ⟨i, hi⟩
                  have hp := (List.mem_filter.mp hi).2
                  simp at hp
                · intro sidx2 s2 h3 hx
                  rcases lookupA_setA_cases _ _ _ _ _ h3 with ⟨he2, hv2⟩ | ⟨hne3, horig2⟩
                  · subst he2
                    subst hv2
                    have hp := (List.mem_filter.mp hx).2
                    simp at hp
                  · obtain ⟨hsome, -⟩ := hmem oid2 o ho
                    obtain ⟨-, -, hc⟩ := hsome sidx hsrc
                    exact hc sidx2 s2 hne3 horig2 hx
            · obtain ⟨hsome, hnone⟩ := hmem oid2 o2 horig
              constructor
              · intro sidx2 hsx
                obtain ⟨ha, ⟨s2, hl2, hm2⟩, hc⟩ := hsome sidx2 hsx
                refine ⟨List.mem_filter.mpr ⟨ha, by simp [hne2]⟩, ?_, ?_⟩
                · by_cases he2 : sidx2 = sidx
                  · subst he2
                    have hseq : s2 = s := by
                      rw [hl2] at hs
                      exact Option.some.inj hs
                    subst hseq
                    refine ⟨_, lookupA_setA_self _ _ _ _ hl2, ?_⟩
                    exact List.mem_filter.mpr ⟨hm2, by simp [hne2]⟩
                  · refine ⟨s2, ?_, hm2⟩
                    rw [lookupA_setA_ne _ _ _ _ (fun hh => he2 hh.symm)]
                    exact hl2
                · intro sidx3 s3 hne3 h3
                  rcases lookupA_setA_cases _ _ _ _ _ h3 with ⟨he3, hv3⟩ | ⟨-, horig3⟩
                  · subst he3
                    subst hv3
                    intro hx
                    exact hc sidx3 s hne3 hs (List.mem_filter.mp hx).1
                  · exact hc sidx3 s3 hne3 horig3
              · intro hsx
                obtain ⟨hreg, hsets⟩ := hnone hsx
                constructor
                · rintro ⟨i, hi⟩
                  exact hreg ⟨i, (List.mem_filter.mp hi).1⟩
                · intro sidx2 s2 h3
                  rcases lookupA_setA_cases _ _ _ _ _ h3 with ⟨he3, hv3⟩ | ⟨-, horig3⟩
                  · subst he3
                    subst hv3
                    intro hx
                    exact hsets sidx2 s hs (List.mem_filter.mp hx).1
                  · exact hsets sidx2 s2 horig3

/-- Registering a fresh object in both collections (the success tail of
Create) preserves the invariant. -/
theorem Inv_register (sys : Sys) (sidx : Nat) (s : Source) (o : SourceOutput)
    (hs : lookupA sys.sources sidx = some s)
    (hosrc : o.source = some sidx) (hoidx : o.index = sys.core.regNext)
    (hinv : Inv sys) :
    Inv { core := { source_outputs := (sys.core.regNext, sys.nextOid) :: sys.core.source_outputs,
                    regNext := sys.core.regNext + 1,
                    resample_method := sys.core.resample_method },
          sources := setA sys.sources sidx { s with outputs := sys.nextOid :: s.outputs },
          objs := (sys.nextOid, o) :: sys.objs,
          nextOid := sys.nextOid + 1 } := by
  obtain ⟨⟨hf1, hf2, hf3⟩, hmem⟩ := hinv
  refine ⟨⟨?_, ?_, ?_⟩, ?_⟩
  · intro oid2 o2 h2
    dsimp only
    by_cases he : sys.nextOid = oid2
    · omega
    · simp only [lookupA, if_neg he] at h2
      have := hf1 oid2 o2 h2
      omega
  · intro sidx2 s2 h2 x hx
    dsimp only
    rcases lookupA_setA_cases _ _ _ _ _ h2 with ⟨he, hv⟩ | ⟨-, horig⟩
    · subst he
      subst hv
      rcases List.mem_cons.mp hx with hx1 | hx2
      · omega
      · have := hf2 sidx2 s hs x hx2
        omega
    · have := hf2 _ _ horig x hx
      omega
  · intro i x hix
    dsimp only
    rcases List.mem_cons.mp hix with hh | ht
    · simp only [Prod.mk.injEq] at hh
      obtain ⟨-, hx2⟩ := hh
      omega
    · have := hf3 i x ht
      omega
  · intro oid2 o2 h2
    by_cases he : sys.nextOid = oid2
    · subst he
      simp [lookupA] at h2
      subst h2
      constructor
      · intro sidx2 hsx
        have hseq : sidx = sidx2 := Option.some.inj (hosrc.symm.trans hsx)
        subst hseq
        refine ⟨?_, ?_, ?_⟩
        · rw [hoidx]
          exact List.mem_cons_self _ _
        · exact ⟨_, lookupA_setA_self _ _ _ _ hs, List.mem_cons_self _ _⟩
        · intro sidx3 s3 hne3 h3
          rcases lookupA_setA_cases _ _ _ _ _ h3 with ⟨he3, -⟩ | ⟨-, horig3⟩
          · exact absurd he3 hne3
          · intro hx
            have := hf2 sidx3 s3 horig3 _ hx
            omega
      · intro hbad
        rw [hosrc] at hbad
        exact Option.noConfusion hbad
    · simp only [lookupA, if_neg he] at h2
      obtain ⟨hsome, hnone⟩ := hmem oid2 o2 h2
      have hlt : oid2 < sys.nextOid := hf1 oid2 o2 h2
      constructor
      · intro sidx2 hsx
        obtain ⟨ha, ⟨s2, hl2, hm2⟩, hc⟩ := hsome sidx2 hsx
        refine ⟨List.mem_cons_of_mem _ ha, ?_, ?_⟩
        · by_cases he2 : sidx2 = sidx
          · subst he2
            have hseq : s2 = s := by
              rw [hl2] at hs
              exact Option.some.inj hs
            subst hseq
            exact ⟨_, lookupA_setA_self _ _ _ _ hl2, List.mem_cons_of_mem _ hm2⟩
          · refine ⟨s2, ?_, hm2⟩
            rw [lookupA_setA_ne _ _ _ _ (fun hh => he2 hh.symm)]
            exact hl2
        · intro sidx3 s3 hne3 h3
          rcases lookupA_setA_cases _ _ _ _ _ h3 with ⟨he3, hv3⟩ | ⟨-, horig3⟩
          · subst he3
            subst hv3
            intro hx
            rcases List.mem_cons.mp hx with hx1 | hx2
            · omega
            · exact hc sidx3 s hne3 hs hx2
          · exact hc sidx3 s3 hne3 horig3
      · intro hsx
        obtain ⟨hreg, hsets⟩ := hnone hsx
        constructor
        · rintro ⟨i, hi⟩
          rcases List.mem_cons.mp hi with hh | ht
          · simp only [Prod.mk.injEq] at hh
            obtain ⟨-, hh2⟩ := hh
            omega
          · exact hreg ⟨i, ht⟩
        · intro sidx2 s2 h3
          rcases lookupA_setA_cases _ _ _ _ _ h3 with ⟨he3, hv3⟩ | ⟨-, horig3⟩
          · subst he3
            subst hv3
            intro hx
            rcases List.mem_cons.mp hx with hx1 | hx2
            · omega
            · exact hsets sidx2 s hs hx2
          · exact hsets sidx2 s2 horig3

/-- The committed tail of a successful Move preserves the invariant. -/
theorem Inv_move_success (sys : Sys) (oid didx oidx : Nat) (o : SourceOutput)
    (dest origin : Source) (nr : Option Nat)
    (ho : lookupA sys.objs oid = some o)
    (hosrc : o.source = some oidx)
    (hdest : lookupA sys.sources didx = some dest)
    (horigin : lookupA sys.sources oidx = some origin)
    (hne : ¬ didx = oidx)
    (hinv : Inv sys) :
    Inv { core := sys.core,
          sources := setA (setA sys.sources oidx
              { origin with outputs := origin.outputs.filter (fun x => ¬ x = oid) })
            didx { dest with outputs := oid :: dest.outputs },
          objs := setA sys.objs oid { o with source := some didx, resampler := nr },
          nextOid := sys.nextOid } := by
  obtain ⟨⟨hf1, hf2, hf3⟩, hmem⟩ := hinv
  have hne' : ¬ oidx = didx := fun hh => hne hh.symm
  have hlt : oid < sys.nextOid := hf1 oid o ho
  obtain ⟨hsomeO, -⟩ := hmem oid o ho
  obtain ⟨hregO, ⟨sO, hlO, hmO⟩, hcO⟩ := hsomeO oidx hosrc
  refine ⟨⟨?_, ?_, ?_⟩, ?_⟩
  · intro oid2 o2 h2
    dsimp only
    rcases lookupA_setA_cases _ _ _ _ _ h2 with ⟨he, -⟩ | ⟨-, horig2⟩
    · rw [he]
      exact hlt
    · exact hf1 _ _ horig2
  · intro sidx2 s2 h2 x hx
    dsimp only
    rcases lookupA_setA_cases _ _ _ _ _ h2 with ⟨-, hv⟩ | ⟨-, hrest⟩
    · subst hv
      rcases List.mem_cons.mp hx with hx1 | hx2
      · rw [hx1]
        exact hlt
      · exact hf2 didx dest hdest x hx2
    · rcases lookupA_setA_cases _ _ _ _ _ hrest with ⟨-, hv3⟩ | ⟨-, horig3⟩
      · subst hv3
        exact hf2 oidx origin horigin x (List.mem_filter.mp hx).1
      · exact hf2 _ _ horig3 x hx
  · intro i x hix
    exact hf3 i x hix
  · intro oid2 o2 h2
    rcases lookupA_setA_cases _ _ _ _ _ h2 with ⟨he, hv⟩ | ⟨hneO, horig2⟩
    · subst he
      subst hv
      constructor
      · intro sidx2 hsx
        have hseq : didx = sidx2 := Option.some.inj hsx
        subst hseq
        refine ⟨hregO, ⟨{ dest with outputs := oid2 :: dest.outputs }, ?_, ?_⟩, ?_⟩
        · refine lookupA_setA_self _ _ _ dest ?_
          rw [lookupA_setA_ne _ _ _ _ hne']
          exact hdest
        · exact List.mem_cons_self _ _
        · intro sidx3 s3 hne3 h3
          rcases lookupA_setA_cases _ _ _ _ _ h3 with ⟨he3, -⟩ | ⟨hne4, hrest3⟩
          · exact absurd he3 hne3
          · rcases lookupA_setA_cases _ _ _ _ _ hrest3 with ⟨he4, hv4⟩ | ⟨hne5, horig4⟩
            · subst hv4
              simp [List.mem_filter]
            · have hsOeq : sO = origin := Option.some.inj (hlO.symm.trans horigin)
              subst hsOeq
              exact hcO sidx3 s3 hne5 horig4
      · intro hbad
        exact absurd hbad (by simp)
    · obtain ⟨hsome2, hnone2⟩ := hmem oid2 o2 horig2
      constructor
      · intro sidx2 hsx
        obtain ⟨ha2, ⟨s2, hl2, hm2⟩, hc2⟩ := hsome2 sidx2 hsx
        refine ⟨ha2, ?_, ?_⟩
        · by_cases he2 : sidx2 = didx
          · subst he2
            have hseq : s2 = dest := Option.some.inj (hl2.symm.trans hdest)
            subst hseq
            refine ⟨{ s2 with outputs := oid :: s2.outputs }, ?_, ?_⟩
            · refine lookupA_setA_self _ _ _ s2 ?_
              rw [lookupA_setA_ne _ _ _ _ hne']
              exact hl2
            · exact List.mem_cons_of_mem _ hm2
          · by_cases he3 : sidx2 = oidx
            · subst he3
              have hseq : s2 = origin := Option.some.inj (hl2.symm.trans horigin)
              subst hseq
              refine ⟨{ s2 with outputs := s2.outputs.filter (fun x => ¬ x = oid) }, ?_, ?_⟩
              · rw [lookupA_setA_ne _ _ _ _ (fun hh => he2 hh.symm)]
                exact lookupA_setA_self _ _ _ s2 hl2
              · exact List.mem_filter.mpr ⟨hm2, by simp [hneO]⟩
            · refine ⟨s2, ?_, hm2⟩
              rw [lookupA_setA_ne _ _ _ _ (fun hh => he2 hh.symm)]
              rw [lookupA_setA_ne _ _ _ _ (fun hh => he3 hh.symm)]
              exact hl2
        · intro sidx3 s3 hne3 h3
          rcases lookupA_setA_cases _ _ _ _ _ h3 with ⟨he3, hv3⟩ | ⟨hne4, hrest3⟩
          · subst hv3
            rw [he3] at hne3
            intro hx
            rcases List.mem_cons.mp hx with hx1 | hx2
            · exact hneO hx1
            · exact hc2 didx dest hne3 hdest hx2
          · rcases lookupA_setA_cases _ _ _ _ _ hrest3 with ⟨he4, hv4⟩ | ⟨hne5, horig4⟩
            · subst hv4
              rw [he4] at hne3
              intro hx
              exact hc2 oidx origin hne3 horigin (List.mem_filter.mp hx).1
            · exact hc2 sidx3 s3 hne3 horig4
      · intro hsx
        obtain ⟨hreg2, hsets2⟩ := hnone2 hsx
        refine ⟨hreg2, ?_⟩
        intro sidx2 s2 h3
        rcases lookupA_setA_cases _ _ _ _ _ h3 with ⟨he3, hv3⟩ | ⟨hne4, hrest3⟩
        · subst hv3
          intro hx
          rcases List.mem_cons.mp hx with hx1 | hx2
          · exact hneO hx1
          · exact hsets2 didx dest hdest hx2
        · rcases lookupA_setA_cases _ _ _ _ _ hrest3 with ⟨he4, hv4⟩ | ⟨hne5, horig4⟩
          · subst hv4
            intro hx
            exact hsets2 oidx origin horigin (List.mem_filter.mp hx).1
          · exact hsets2 sidx2 s2 horig4

theorem Inv_new (env : Env) (sys : Sys) (sidx : Nat) (driver : Option String)
    (name : String) (spec : SampleSpec) (map? : Option ChannelMap) (rm : Int)
    (sys' : Sys) (evs : List Event) (res : Option Nat) (hinv : Inv sys)
    (h : pa_source_output_new env sys sidx driver name spec map? rm =
      some (sys', evs, res)) :
    Inv sys' := by
  unfold pa_source_output_new at h
  cases hsrc : lookupA sys.sources sidx with
  | none =>
    simp only [hsrc] at h
    exact Option.noConfusion h
  | some s =>
    simp only [hsrc] at h
    by_cases hrun : s.state ≠ SourceState.RUNNING
    · rw [if_pos hrun] at h
      exact Option.noConfusion h
    · rw [if_neg hrun] at h
      repeat' split at h
      all_goals simp only [Option.some.injEq, Prod.mk.injEq] at h
      all_goals obtain ⟨hsys, -⟩ := h
      all_goals subst hsys
      all_goals first
        | exact hinv
        | exact Inv_register sys sidx s _ hsrc rfl rfl hinv

theorem Inv_free (sys : Sys) (oid : Nat) (sys' : Sys) (evs : List Event)
    (hinv : Inv sys) (h : source_output_free sys oid = some (sys', evs)) :
    Inv sys' := by
  unfold source_output_free at h
  cases ho : lookupA sys.objs oid with
  | none =>
    simp only [ho] at h
    exact Option.noConfusion h
  | some o =>
    simp only [ho] at h
    cases hstep : (if o.state ≠ SOState.DISCONNECTED
        then pa_source_output_disconnect sys oid else some (sys, [])) with
    | none =>
      simp only [hstep] at h
      exact Option.noConfusion h
    | some pr =>
      obtain ⟨sys1, evs1⟩ := pr
      simp only [hstep] at h
      have hinv1 : Inv sys1 := by
        by_cases hd : o.state ≠ SOState.DISCONNECTED
        · rw [if_pos hd] at hstep
          exact Inv_disconnect sys oid sys1 evs1 hinv hstep
        · rw [if_neg hd] at hstep
          simp only [Option.some.injEq, Prod.mk.injEq] at hstep
          obtain ⟨h1, -⟩ := hstep
          rw [← h1]
          exact hinv
      cases h1o : lookupA sys1.objs oid with
      | none =>
        simp only [h1o] at h
        exact Option.noConfusion h
      | some o1 =>
        simp only [h1o, Option.some.injEq, Prod.mk.injEq] at h
        obtain ⟨hsys, -⟩ := h
        subst hsys
        exact Inv_objs_remove sys1 oid hinv1

theorem Inv_unref (sys : Sys) (oid : Nat) (sys' : Sys) (evs : List Event)
    (hinv : Inv sys) (h : pa_source_output_unref sys oid = some (sys', evs)) :
    Inv sys' := by
  unfold pa_source_output_unref at h
  cases ho : lookupA sys.objs oid with
  | none =>
    simp only [ho] at h
    exact Option.noConfusion h
  | some o =>
    simp only [ho] at h
    by_cases h0 : o.ref = 0
    · rw [if_pos h0] at h
      exact Option.noConfusion h
    · rw [if_neg h0] at h
      by_cases h1 : o.ref = 1
      · rw [if_pos h1] at h
        refine Inv_free _ oid sys' evs ?_ h
        exact Inv_of_objs_update sys oid o { o with ref := 0 } ho rfl rfl hinv
      · rw [if_neg h1] at h
        simp only [Option.some.injEq, Prod.mk.injEq] at h
        obtain ⟨hsys, -⟩ := h
        subst hsys
        exact Inv_of_objs_update sys oid o { o with ref := o.ref - 1 } ho rfl rfl hinv

theorem Inv_ref (sys : Sys) (oid : Nat) (sys' : Sys)
    (hinv : Inv sys) (h : pa_source_output_ref sys oid = some sys') : Inv sys' := by
  unfold pa_source_output_ref at h
  cases ho : lookupA sys.objs oid with
  | none =>
    simp only [ho] at h
    exact Option.noConfusion h
  | some o =>
    simp only [ho] at h
    by_cases h0 : o.ref = 0
    · rw [if_pos h0] at h
      exact Option.noConfusion h
    · rw [if_neg h0] at h
      rw [← Option.some.inj h]
      exact Inv_of_objs_update sys oid o { o with ref := o.ref + 1 } ho rfl rfl hinv

theorem Inv_sysCork (sys : Sys) (oid : Nat) (b : Bool) (sys' : Sys)
    (evs : List Event) (hinv : Inv sys) (h : sysCork sys oid b = some (sys', evs)) :
    Inv sys' := by
  unfold sysCork at h
  cases ho : lookupA sys.objs oid with
  | none =>
    simp only [ho] at h
    exact Option.noConfusion h
  | some o =>
    simp only [ho] at h
    cases hc : pa_source_output_cork o b with
    | none =>
      simp only [hc] at h
      exact Option.noConfusion h
    | some pr =>
      obtain ⟨o1, evs1⟩ := pr
      simp only [hc, Option.some.injEq, Prod.mk.injEq] at h
      obtain ⟨hsys, -⟩ := h
      subst hsys
      obtain ⟨hs1, hs2⟩ := cork_fields o b o1 evs1 hc
      exact Inv_of_objs_update sys oid o o1 ho hs1 hs2 hinv

theorem Inv_sysSetName (sys : Sys) (oid : Nat) (name : String) (sys' : Sys)
    (evs : List Event) (hinv : Inv sys)
    (h : sysSetName sys oid name = some (sys', evs)) : Inv sys' := by
  unfold sysSetName at h
  cases ho : lookupA sys.objs oid with
  | none =>
    simp only [ho] at h
    exact Option.noConfusion h
  | some o =>
    simp only [ho] at h
    cases hc : pa_source_output_set_name o name with
    | none =>
      simp only [hc] at h
      exact Option.noConfusion h
    | some pr =>
      obtain ⟨o1, evs1⟩ := pr
      simp only [hc, Option.some.injEq, Prod.mk.injEq] at h
      obtain ⟨hsys, -⟩ := h
      subst hsys
      obtain ⟨hs1, hs2⟩ := set_name_fields o name o1 evs1 hc
      exact Inv_of_objs_update sys oid o o1 ho hs1 hs2 hinv

theorem Inv_move (env : Env) (sys : Sys) (oid didx : Nat) (garbage : Option Nat)
    (sys' : Sys) (evs : List Event) (r : Int) (hinv : Inv sys)
    (h : pa_source_output_move_to env sys oid didx garbage = some (sys', evs, r)) :
    Inv sys' := by
  unfold pa_source_output_move_to at h
  cases ho : lookupA sys.objs oid with
  | none =>
    simp only [ho] at h
    exact Option.noConfusion h
  | some o =>
    simp only [ho] at h
    by_cases h0 : o.ref = 0
    · rw [if_pos h0] at h
      exact Option.noConfusion h
    · rw [if_neg h0] at h
      cases hdest : lookupA sys.sources didx with
      | none =>
        simp only [hdest] at h
        exact Option.noConfusion h
      | some dest =>
        simp only [hdest] at h
        by_cases hsame : o.source = some didx
        · rw [if_pos hsame] at h
          simp only [Option.some.injEq, Prod.mk.injEq] at h
          obtain ⟨hsys, -⟩ := h
          subst hsys
          exact hinv
        · rw [if_neg hsame] at h
          by_cases hcap : PA_MAX_OUTPUTS_PER_SOURCE ≤ dest.outputs.length
          · rw [if_pos hcap] at h
            simp only [Option.some.injEq, Prod.mk.injEq] at h
            obtain ⟨hsys, -⟩ := h
            subst hsys
            exact hinv
          · rw [if_neg hcap] at h
            cases hsrc : o.source with
            | none =>
              simp only [hsrc] at h
              exact Option.noConfusion h
            | some oidx =>
              simp only [hsrc] at h
              cases horigin : lookupA sys.sources oidx with
              | none =>
                simp only [horigin] at h
                exact Option.noConfusion h
              | some origin =>
                simp only [horigin] at h
                have hne : ¬ didx = oidx := by
                  intro hh
                  rw [hsrc, hh] at hsame
                  exact hsame rfl
                repeat' split at h
                all_goals simp only [Option.some.injEq, Prod.mk.injEq] at h
                all_goals obtain ⟨hsys, -⟩ := h
                all_goals subst hsys
                all_goals first
                  | exact hinv
                  | exact Inv_move_success sys oid didx oidx o dest origin _ ho
                      hsrc hdest horigin hne hinv

/-- One mutation of this core, at the system level. -/
inductive Step (env : Env) : Sys → Sys → Prop where
  | create (sidx : Nat) (driver : Option String) (name : String)
      (spec : SampleSpec) (map? : Option ChannelMap) (rm : Int)
      (sys sys' : Sys) (evs : List Event) (res : Option Nat) :
      pa_source_output_new env sys sidx driver name spec map? rm =
        some (sys', evs, res) → Step env sys sys'
  | disconnect (oid : Nat) (sys sys' : Sys) (evs : List Event) :
      pa_source_output_disconnect sys oid = some (sys', evs) → Step env sys sys'
  | ref (oid : Nat) (sys sys' : Sys) :
      pa_source_output_ref sys oid = some sys' → Step env sys sys'
  | unref (oid : Nat) (sys sys' : Sys) (evs : List Event) :
      pa_source_output_unref sys oid = some (sys', evs) → Step env sys sys'
  | cork (oid : Nat) (b : Bool) (sys sys' : Sys) (evs : List Event) :
      sysCork sys oid b = some (sys', evs) → Step env sys sys'
  | rename (oid : Nat) (name : String) (sys sys' : Sys) (evs : List Event) :
      sysSetName sys oid name = some (sys', evs) → Step env sys sys'
  | move (oid didx : Nat) (garbage : Option Nat) (sys sys' : Sys)
      (evs : List Event) (r : Int) :
      pa_source_output_move_to env sys oid didx garbage = some (sys', evs, r) →
      Step env sys sys'

/-- C8: membership is all-or-nothing across the global registry and the
per-source member sets.  (1) every operation of this core preserves the
invariant that a live object with a source association is in the registry
under its own index and in exactly its source's member set, while a
disconnected object is in neither; (2) right after a successful Create the
new object is in both collections, in the registry under its index; (3)
right after Disconnect it is in neither the registry nor any source's member
set. -/
theorem c8_membership_all_or_nothing :
    (∀ env sys sys', Inv sys → Step env sys sys' → Inv sys') ∧
    (∀ env sys sidx driver name spec map? rm sys' evs oid,
       pa_source_output_new env sys sidx driver name spec map? rm =
         some (sys', evs, some oid) →
       ∃ o, lookupA sys'.objs oid = some o ∧
         (o.index, oid) ∈ sys'.core.source_outputs ∧
         ∃ sidx2 s, o.source = some sidx2 ∧
           lookupA sys'.sources sidx2 = some s ∧ oid ∈ s.outputs) ∧
    (∀ sys oid sys' evs, Inv sys →
       pa_source_output_disconnect sys oid = some (sys', evs) →
       ¬ InRegistry sys' oid ∧
       ∀ sidx s, lookupA sys'.sources sidx = some s → oid ∉ s.outputs) := by
  refine ⟨?_, ?_, ?_⟩
  · intro env sys sys' hinv hstep
    cases hstep with
    | create sidx driver name spec map? rm _ _ evs res h =>
      exact Inv_new env sys sidx driver name spec map? rm sys' evs res hinv h
    | disconnect oid _ _ evs h => exact Inv_disconnect sys oid sys' evs hinv h
    | ref oid _ _ h => exact Inv_ref sys oid sys' hinv h
    | unref oid _ _ evs h => exact Inv_unref sys oid sys' evs hinv h
    | cork oid b _ _ evs h => exact Inv_sysCork sys oid b sys' evs hinv h
    | rename oid name _ _ evs h => exact Inv_sysSetName sys oid name sys' evs hinv h
    | move oid didx garbage _ _ evs r h =>
      exact Inv_move env sys oid didx garbage sys' evs r hinv h
  · intro env sys sidx driver name spec map? rm sys' evs oid h
    unfold pa_source_output_new at h
    cases hsrc : lookupA sys.sources sidx with
    | none =>
      simp only [hsrc] at h
      exact Option.noConfusion h
    | some s =>
      simp only [hsrc] at h
      by_cases hrun : s.state ≠ SourceState.RUNNING
      · rw [if_pos hrun] at h
        exact Option.noConfusion h
      · rw [if_neg hrun] at h
        repeat' split at h <;> try simp at h
        all_goals obtain ⟨hsys, -, hoid⟩ := h
        all_goals subst hsys
        all_goals subst hoid
        all_goals refine ⟨_, lookupA_cons_self _ _ _, List.mem_cons_self _ _,
          sidx, _, rfl, lookupA_setA_self _ _ _ _ hsrc, List.mem_cons_self _ _⟩
  · intro sys oid sys' evs hinv h
    obtain ⟨-, hmem⟩ := hinv
    unfold pa_source_output_disconnect at h
    cases ho : lookupA sys.objs oid with
    | none =>
      simp only [ho] at h
      exact Option.noConfusion h
    | some o =>
      simp only [ho] at h
      by_cases hnd : o.state = SOState.DISCONNECTED
      · rw [if_pos hnd] at h
        exact Option.noConfusion h
      · rw [if_neg hnd] at h
        cases hsrc : o.source with
        | none =>
          simp only [hsrc] at h
          exact Option.noConfusion h
        | some sidx =>
          simp only [hsrc] at h
          cases hs : lookupA sys.sources sidx with
          | none =>
            simp only [hs] at h
            exact Option.noConfusion h
          | some s =>
            simp only [hs, Option.some.injEq, Prod.mk.injEq] at h
            obtain ⟨hsys, -⟩ := h
            subst hsys
            constructor
            · rintro ⟨i, hi⟩
              have hp := (List.mem_filter.mp hi).2
              simp at hp
            · intro sidx2 s2 h3
              rcases lookupA_setA_cases _ _ _ _ _ h3 with ⟨he3, hv3⟩ | ⟨hne3, horig3⟩
              · subst he3
                subst hv3
                intro hx
                have hp := (List.mem_filter.mp hx).2
                simp at hp
              · obtain ⟨hsome, -⟩ := hmem oid o ho
                obtain ⟨-, -, hc⟩ := hsome sidx hsrc
                exact hc sidx2 s2 hne3 horig3

def srcE : Source :=
  { index := 0, state := SourceState.RUNNING, sample_spec := specA,
    channel_map := mapAB, outputs := [] }

def sysE : Sys :=
  { core := { source_outputs := [], regNext := 5, resample_method := 0 },
    sources := [(0, srcE)], objs := [], nextOid := 7 }

def sysE1 : Sys :=
  ((pa_source_output_new envId sysE 0 none "n" specA none 0).getD
    (sysE, [], none)).1

theorem Inv_sysE : Inv sysE := by
  refine ⟨⟨?_, ?_, ?_⟩, ?_⟩
  · intro oid o h
    simp [sysE, lookupA] at h
  · intro sidx s hs x hx
    simp only [sysE, lookupA] at hs
    split at hs
    · rw [← Option.some.inj hs] at hx
      simp [srcE] at hx
    · exact Option.noConfusion hs
  · intro i x hix
    simp [sysE] at hix
  · intro oid o h
    simp [sysE, lookupA] at h

/-- Witness for C8: on a concrete empty system, Create puts object 7 in both
collections under index 5, the invariant is preserved, and a following
Disconnect leaves it in neither collection. -/
theorem c8_membership_all_or_nothing_witness :
    Inv sysE ∧
    pa_source_output_new envId sysE 0 none "n" specA none 0 =
      some (sysE1, [Event.subNew 5], some 7) ∧
    Inv sysE1 ∧
    (∃ o, lookupA sysE1.objs 7 = some o ∧
      (o.index, 7) ∈ sysE1.core.source_outputs ∧
      ∃ sidx s, o.source = some sidx ∧ lookupA sysE1.sources sidx = some s ∧
        7 ∈ s.outputs) ∧
    (∃ sys2 evs2, pa_source_output_disconnect sysE1 7 = some (sys2, evs2) ∧
      ¬ InRegistry sys2 7 ∧
      ∀ sidx s, lookupA sys2.sources sidx = some s → 7 ∉ s.outputs) := by
  have hnew : pa_source_output_new envId sysE 0 none "n" specA none 0 =
      some (sysE1, [Event.subNew 5], some 7) := rfl
  have hinv1 : Inv sysE1 :=
    c8_membership_all_or_nothing.1 envId sysE sysE1 Inv_sysE
      (Step.create 0 none "n" specA none 0 sysE sysE1 [Event.subNew 5] (some 7) hnew)
  have hdisc : pa_source_output_disconnect sysE1 7 =
      some (((pa_source_output_disconnect sysE1 7).getD (sysE1, [])).1,
            ((pa_source_output_disconnect sysE1 7).getD (sysE1, [])).2) := rfl
  have hpost := c8_membership_all_or_nothing.2.2 sysE1 7 _ _ hinv1 hdisc
  refine ⟨Inv_sysE, hnew, hinv1, ?_, ⟨_, _, hdisc, hpost.1, hpost.2⟩⟩
  exact c8_membership_all_or_nothing.2.1 envId sysE 0 none "n" specA none 0
    sysE1 [Event.subNew 5] 7 hnew

end SourceOutputCore
